import Mathlib

/-!
Shallow embedding of the session and transport multiplexing layer of the
DataForSEO MCP server (`src/index-http.ts`).  The file under `src/` bundles
two variants of the server: a stateless one (each request builds a fresh
handler and transport) and a session-tracking one (a global `transports`
record maps session ids to `{transport, lastActivity}` entries, swept by a
periodic reaper).  The definitions below translate the session store, the
credential middleware, the `/mcp` router, the eviction callbacks, the reaper
sweep and the SIGINT shutdown loop into Lean, and the theorems settle the
frozen claims about them.

Modelling conventions:
* JS `Date.now()` timestamps are `Int` (integer milliseconds).
* The `transports` record is an insertion-ordered association list with
  unique keys; `storeGet` / `storeSet` / `storeDelete` mirror JS property
  read / assignment / `delete`.
* A transport handle is reduced to the data the multiplexing layer reads:
  an identity `tid`, its protocol generation (the `instanceof` checks), and
  a `closeFails` flag stating whether its `close()` call throws (the layer
  wraps every close in `try`/`catch`, so a thrown close is observable only
  as a logged error).
* JS strings in the credential extractor are `List Char` (`JStr`), so that
  `String.prototype.split` can be translated exactly.
-/

/-- `const CONNECTION_TIMEOUT = 30000; // 30 seconds` (index-http.ts:673). -/
def CONNECTION_TIMEOUT : Int := 30000

/-- `const CLEANUP_INTERVAL = 60000; // 1 minute` (index-http.ts:674). -/
def CLEANUP_INTERVAL : Int := 60000

/-- The two wire-protocol generations: `StreamableHTTPServerTransport`
(the newer `/mcp` generation) and `SSEServerTransport` (the older
`/sse` + `/messages` generation).  The source distinguishes them with
`instanceof` checks. -/
inductive Generation where
  | streaming
  | eventStream
deriving DecidableEq

/-- The slice of a transport handle the multiplexing layer observes:
its identity, which generation it is an instance of, and whether its
`close()` procedure throws when invoked. -/
structure Transport where
  tid : Nat
  gen : Generation
  closeFails : Bool
deriving DecidableEq

/-- `interface TransportWithTimestamp { transport; lastActivity: number }`
(index-http.ts:683-686). -/
structure TransportWithTimestamp where
  transport : Transport
  lastActivity : Int
deriving DecidableEq

/-- `const transports: Record<string, TransportWithTimestamp> = {}`
(index-http.ts:689), as an insertion-ordered association list with
unique keys. -/
abbrev Store := List (String × TransportWithTimestamp)

/-- JS property read `transports[sessionId]`: the value at the key, if
present. -/
def storeGet : Store → String → Option TransportWithTimestamp
  | [], _ => none
  | (k, v) :: rest, k0 => if k = k0 then some v else storeGet rest k0

/-- JS property assignment `transports[sessionId] = entry`: replaces the
value in place when the key is present, otherwise appends. -/
def storeSet : Store → String → TransportWithTimestamp → Store
  | [], k0, v0 => [(k0, v0)]
  | (k, v) :: rest, k0, v0 =>
      if k = k0 then (k0, v0) :: rest else (k, v) :: storeSet rest k0 v0

/-- JS `delete transports[sessionId]`: removes the key (a no-op when the
key is absent). -/
def storeDelete : Store → String → Store
  | [], _ => []
  | (k, v) :: rest, k0 =>
      if k = k0 then storeDelete rest k0 else (k, v) :: storeDelete rest k0

/-- The staleness test of the reaper:
`now - lastActivity > CONNECTION_TIMEOUT` (index-http.ts:696). -/
def isStale (now : Int) (td : TransportWithTimestamp) : Bool :=
  now - td.lastActivity > CONNECTION_TIMEOUT

/-- `cleanupStaleConnections` (index-http.ts:692-712): iterates a snapshot
of `Object.entries(transports)`; every stale entry has its transport
closed inside `try`/`catch` and is then deleted from the record.  The
second component is the list of close events `(sessionId, close succeeded)`,
in visit order; a throwing close is caught and the sweep continues. -/
def cleanupStaleConnections (now : Int) : Store → Store × List (String × Bool)
  | [] => ([], [])
  | (sid, td) :: rest =>
      let r := cleanupStaleConnections now rest
      if isStale now td then
        (r.1, (sid, !td.transport.closeFails) :: r.2)
      else
        ((sid, td) :: r.1, r.2)

/-- The `cleanup` closure registered on every streamable `/mcp` transport
(index-http.ts:953-969): reads `transport.sessionId` (which may still be
unassigned), and only when it is truthy and still present in the record
does it close the transport (inside `try`/`catch`) and delete the entry.
Returns the new store and the number of `close()` invocations this call
performed. -/
def streamableCleanup (sid : Option String) (s : Store) : Store × Nat :=
  match sid with
  | none => (s, 0)
  | some k =>
      if k ≠ "" ∧ (storeGet s k).isSome then (storeDelete s k, 1) else (s, 0)

/-- The `cleanup` closure registered on every `/sse` transport
(index-http.ts:1341-1351): unconditionally closes the transport (inside
`try`/`catch`) and deletes its entry — there is no presence guard.
Returns the new store and the number of `close()` invocations. -/
def sseCleanup (sid : String) (s : Store) : Store × Nat :=
  (storeDelete s sid, 1)

/-- The `SIGINT` shutdown loop (index-http.ts:1455-1466):
`for (const sessionId in transports) { try { await close(); delete } catch { log } }`.
The `delete` sits inside the `try` after the `await`, so a throwing close
skips the deletion; the error is logged and the loop continues with the
next entry.  The second component is the list of `(sessionId, close
succeeded)` events in visit order. -/
def shutdownSweep : Store → Store × List (String × Bool)
  | [] => ([], [])
  | (sid, td) :: rest =>
      let r := shutdownSweep rest
      if td.transport.closeFails then
        ((sid, td) :: r.1, (sid, false) :: r.2)
      else
        (r.1, (sid, true) :: r.2)

/-- The session registration performed at both creation sites —
`onsessioninitialized` for the streamable generation (index-http.ts:942-950)
and the `/sse` handler (index-http.ts:1332-1338).  Both are the bare
assignment `transports[sessionId] = { transport, lastActivity: Date.now() }`. -/
def registerSession (s : Store) (sid : String) (td : TransportWithTimestamp) : Store :=
  storeSet s sid td

/-- The shape of an error response the layer writes itself:
`res.status(status).json(...)`, where `rpcCode` is the JSON-RPC
`error.code` when the body is a JSON-RPC envelope and `none` when the
body is a plain object without such a code. -/
structure ErrorBody where
  status : Nat
  rpcCode : Option Int
  message : String
deriving DecidableEq

/-- The two environment-sourced fallback credentials
`process.env.DATAFORSEO_USERNAME` / `DATAFORSEO_PASSWORD` (`none` models
an unset variable). -/
structure Env where
  username : Option String
  password : Option String
deriving DecidableEq

/-- JS truthiness of a possibly-unset environment string: `undefined`
and the empty string are falsy. -/
def truthy : Option String → Bool
  | none => false
  | some s => s ≠ ""

/-- The credential fallback block repeated at the head of every protected
handler (e.g. index-http.ts:891-909): when the middleware attached no
request credentials, fall back to the two environment variables; when
either of those is falsy, answer with the handler-specific `failure`
response.  Request credentials, when attached, are used as-is (the
middleware only ever attaches two non-empty halves). -/
def resolveCreds (reqCreds : Option (String × String)) (env : Env)
    (failure : ErrorBody) : ErrorBody ⊕ (String × String) :=
  match reqCreds with
  | some c => .inr c
  | none =>
      if truthy env.username ∧ truthy env.password then
        .inr (env.username.getD "", env.password.getD "")
      else
        .inl failure

/-- 401 body of the session-tracking `/mcp` handler (index-http.ts:896-905):
a JSON-RPC envelope with code `-32001`. -/
def mcpAuthRequired : ErrorBody :=
  ⟨401, some (-32001), "Authentication required. Provide DataForSEO credentials."⟩

/-- 401 body of the `/sse` handler (index-http.ts:1317-1325): a JSON-RPC
envelope with code `-32001`. -/
def sseAuthRequired : ErrorBody :=
  ⟨401, some (-32001), "Authentication required. Provide DataForSEO credentials."⟩

/-- 401 body of the `/messages` handler (index-http.ts:1376-1384): a
JSON-RPC envelope with code `-32001`. -/
def messagesAuthRequired : ErrorBody :=
  ⟨401, some (-32001), "Authentication required. Provide DataForSEO credentials."⟩

/-- 401 body of the stateless variant's `GET /tools` handler
(index-http.ts:280-283): a plain `{ error: ... }` object with no JSON-RPC
code. -/
def toolsAuthRequired : ErrorBody :=
  ⟨401, none, "Authentication required. Provide DataForSEO credentials via Basic Auth or environment variables."⟩

/-- 401 body of the stateless variant's `POST /tool` handler
(index-http.ts:341-344): a plain `{ error: ... }` object with no JSON-RPC
code. -/
def toolAuthRequired : ErrorBody :=
  ⟨401, none, "Authentication required. Provide DataForSEO credentials via Basic Auth or environment variables."⟩

/-- 401 body of `POST /validate-credentials` (index-http.ts:1207-1212):
a plain `{ valid: false, error: ..., message: ... }` object with no
JSON-RPC code. -/
def validateCredsAuthRequired : ErrorBody :=
  ⟨401, none, "No credentials provided"⟩

/-- Credential resolution of the session-tracking `/mcp` handler. -/
def mcpCredCheck (reqCreds : Option (String × String)) (env : Env) :
    ErrorBody ⊕ (String × String) :=
  resolveCreds reqCreds env mcpAuthRequired

/-- Credential resolution of the `/sse` handler. -/
def sseCredCheck (reqCreds : Option (String × String)) (env : Env) :
    ErrorBody ⊕ (String × String) :=
  resolveCreds reqCreds env sseAuthRequired

/-- Credential resolution of the `/messages` handler. -/
def messagesCredCheck (reqCreds : Option (String × String)) (env : Env) :
    ErrorBody ⊕ (String × String) :=
  resolveCreds reqCreds env messagesAuthRequired

/-- Credential resolution of the stateless `GET /tools` handler. -/
def toolsCredCheck (reqCreds : Option (String × String)) (env : Env) :
    ErrorBody ⊕ (String × String) :=
  resolveCreds reqCreds env toolsAuthRequired

/-- Credential resolution of the stateless `POST /tool` handler. -/
def toolCredCheck (reqCreds : Option (String × String)) (env : Env) :
    ErrorBody ⊕ (String × String) :=
  resolveCreds reqCreds env toolAuthRequired

/-- Credential resolution of the `POST /validate-credentials` handler. -/
def validateCredsCheck (reqCreds : Option (String × String)) (env : Env) :
    ErrorBody ⊕ (String × String) :=
  resolveCreds reqCreds env validateCredsAuthRequired

/-- HTTP methods as dispatched by Express for the `app.all("/mcp")` route. -/
inductive Method where
  | get
  | post
  | delete
  | other
deriving DecidableEq

/-- The request data the session-tracking `/mcp` handler reads: the HTTP
method, the `mcp-session-id` header, whether `isInitializeRequest(req.body)`
holds, and the credentials the auth middleware attached (if any). -/
structure McpRequest where
  method : Method
  sessionId : Option String
  isInit : Bool
  creds : Option (String × String)
deriving DecidableEq

/-- 400 body `"Bad Request: Session exists but uses a different transport
protocol"` (index-http.ts:922-931). -/
def protocolMismatch : ErrorBody :=
  ⟨400, some (-32000), "Bad Request: Session exists but uses a different transport protocol"⟩

/-- 400 body `"Bad Request: No valid session ID provided"`
(index-http.ts:983-991). -/
def noValidSession : ErrorBody :=
  ⟨400, some (-32000), "Bad Request: No valid session ID provided"⟩

/-- Outcome of routing one request through the session-tracking `/mcp`
handler: an error response written by the handler itself, a resume
(`transport.handleRequest` on the stored transport), or a creation (a new
transport with identity `freshTid` plus a new `getServer(username,
password)` handler bound to it). -/
inductive McpOutcome where
  | errorResponse (e : ErrorBody)
  | resumed (sid : String) (tid : Nat)
  | created (tid : Nat) (username password : String)
deriving DecidableEq

/-- HTTP status of an `/mcp` routing outcome, when the handler itself
writes one (`none` when the response is produced by the transport). -/
def outcomeStatus : McpOutcome → Option Nat
  | .errorResponse e => some e.status
  | _ => none

/-- The session-tracking `app.all("/mcp")` handler (index-http.ts:883-1008)
after the auth middleware, acting on the store:
1. resolve credentials (request, else environment, else 401 with code -32001);
2. if the session header is truthy and the store has the id: resume when
   the stored transport is a `StreamableHTTPServerTransport` (touching
   `lastActivity`), else 400 protocol mismatch;
3. else if the header is falsy, the method is POST and the body is an
   initialization message: build a fresh transport and a fresh
   `getServer` handler bound to the request credentials (registration in
   the store happens later, via `onsessioninitialized`);
4. otherwise 400 "No valid session ID provided".  A truthy session header
   whose id is absent from the store falls into this branch. -/
def handleMcp (env : Env) (store : Store) (now : Int) (freshTid : Nat)
    (req : McpRequest) : McpOutcome × Store :=
  match mcpCredCheck req.creds env with
  | .inl e => (.errorResponse e, store)
  | .inr (u, p) =>
      let fallback : McpOutcome × Store :=
        if req.method = .post ∧ req.isInit then
          (.created freshTid u p, store)
        else
          (.errorResponse noValidSession, store)
      match req.sessionId with
      | none => fallback
      | some sid =>
          if sid = "" then fallback
          else
            match storeGet store sid with
            | some td =>
                match td.transport.gen with
                | .streaming =>
                    (.resumed sid td.transport.tid,
                      storeSet store sid ⟨td.transport, now⟩)
                | .eventStream => (.errorResponse protocolMismatch, store)
            | none => (.errorResponse noValidSession, store)

/-- The stateless variant's `app.get("/mcp")` handler (index-http.ts:456-466):
it answers 405 `"Method not allowed."` without reading the request. -/
def statelessGetMcp (_req : McpRequest) : ErrorBody :=
  ⟨405, some (-32000), "Method not allowed."⟩

/-- JS strings in the auth middleware, as explicit character lists. -/
abbrev JStr := List Char

/-- `String.prototype.split(sep)` for a one-character separator:
`jsSplit sep "a:b:" = ["a", "b", ""]`, `jsSplit sep "" = [""]`. -/
def jsSplit (sep : Char) : JStr → List JStr
  | [] => [[]]
  | c :: cs =>
      if c = sep then [] :: jsSplit sep cs
      else
        match jsSplit sep cs with
        | [] => [[c]]
        | p :: ps => (c :: p) :: ps

/-- `"Basic "` — the scheme the middleware tests with `startsWith`. -/
def basicScheme : JStr := ['B', 'a', 's', 'i', 'c', ' ']

/-- `"Bearer "` — the scheme the middleware tests with `startsWith`. -/
def bearerScheme : JStr := ['B', 'e', 'a', 'r', 'e', 'r', ' ']

/-- 401 body `"Invalid credentials"` of the Basic branch
(index-http.ts:809-816). -/
def basicInvalidCreds : ErrorBody :=
  ⟨401, some (-32001), "Invalid credentials"⟩

/-- 401 body `"Invalid Bearer token"` of the empty-token Bearer branch
(index-http.ts:829-837). -/
def bearerEmptyToken : ErrorBody :=
  ⟨401, some (-32001), "Invalid Bearer token"⟩

/-- 401 body of the malformed-decode Bearer branch (index-http.ts:847-856). -/
def bearerInvalidFormat : ErrorBody :=
  ⟨401, some (-32001), "Invalid Bearer token format. Expected base64 encoded username:password"⟩

/-- Result of the auth middleware on one request: pass through with no
credentials attached, attach a `(username, password)` pair, or write a
401 response. -/
inductive AuthResult where
  | passthrough
  | attached (username password : JStr)
  | denied (e : ErrorBody)
deriving DecidableEq

/-- The shared decode step of both branches (index-http.ts:802-822 and
842-861): split the decoded credential string on `":"`, destructure the
first two parts as `username` / `password` (a missing part is
`undefined`, falsy like the empty string), and deny with the
branch-specific 401 body when either is falsy. -/
def extractDecoded (failBody : ErrorBody) (credentials : JStr) : AuthResult :=
  let parts := jsSplit ':' credentials
  let username := parts.getD 0 []
  let password := parts.getD 1 []
  if username = [] ∨ password = [] then .denied failBody
  else .attached username password

/-- `authMiddleware` (index-http.ts:791-877).  `decode` stands for
`Buffer.from(x, "base64").toString("utf-8")` — Node's lenient base64
decoder, which never throws (so the `catch` branch of the Bearer arm is
unreachable and the decoder is a total function).  No header, or a header
of any other scheme, passes through without credentials; `Basic `/
`Bearer ` headers have the chunk after the first space base64-decoded and
split on `":"`. -/
def authMiddleware (decode : JStr → JStr) (header : Option JStr) : AuthResult :=
  match header with
  | none => .passthrough
  | some h =>
      if basicScheme.isPrefixOf h then
        extractDecoded basicInvalidCreds (decode ((jsSplit ' ' h).getD 1 []))
      else if bearerScheme.isPrefixOf h then
        let token := (jsSplit ' ' h).getD 1 []
        if token = [] then .denied bearerEmptyToken
        else extractDecoded bearerInvalidFormat (decode token)
      else .passthrough

theorem storeGet_storeDelete_self (s : Store) (k : String) :
    storeGet (storeDelete s k) k = none := by
  induction s with
  | nil => rfl
  | cons hd tl ih =>
      obtain ⟨k1, v1⟩ := hd
      by_cases h : k1 = k
      · simpa [storeDelete, h] using ih
      · simpa [storeDelete, storeGet, h] using ih

theorem storeDelete_of_absent (s : Store) (k : String) (h : storeGet s k = none) :
    storeDelete s k = s := by
  induction s with
  | nil => rfl
  | cons hd tl ih =>
      obtain ⟨k1, v1⟩ := hd
      by_cases hk : k1 = k
      · simp [storeGet, hk] at h
      · simp only [storeGet, hk, if_neg, ite_false] at h
        simp [storeDelete, hk, ih h]

theorem storeDelete_idem (s : Store) (k : String) :
    storeDelete (storeDelete s k) k = storeDelete s k :=
  storeDelete_of_absent _ _ (storeGet_storeDelete_self s k)

theorem storeGet_storeSet_self (s : Store) (k : String) (v : TransportWithTimestamp) :
    storeGet (storeSet s k v) k = some v := by
  induction s with
  | nil => simp [storeSet, storeGet]
  | cons hd tl ih =>
      obtain ⟨k1, v1⟩ := hd
      by_cases h : k1 = k
      · simp [storeSet, h, storeGet]
      · simp [storeSet, h, storeGet, ih]

theorem cleanup_fst (now : Int) (s : Store) :
    (cleanupStaleConnections now s).1 = s.filter (fun e => !(isStale now e.2)) := by
  induction s with
  | nil => rfl
  | cons hd tl ih =>
      obtain ⟨sid, td⟩ := hd
      cases h : isStale now td <;>
        simp [cleanupStaleConnections, List.filter_cons, h, ih]

theorem cleanup_snd (now : Int) (s : Store) :
    (cleanupStaleConnections now s).2 =
      (s.filter (fun e => isStale now e.2)).map
        (fun e => (e.1, !e.2.transport.closeFails)) := by
  induction s with
  | nil => rfl
  | cons hd tl ih =>
      obtain ⟨sid, td⟩ := hd
      cases h : isStale now td <;>
        simp [cleanupStaleConnections, List.filter_cons, h, ih]

theorem shutdown_fst (s : Store) :
    (shutdownSweep s).1 = s.filter (fun e => e.2.transport.closeFails) := by
  induction s with
  | nil => rfl
  | cons hd tl ih =>
      obtain ⟨sid, td⟩ := hd
      cases h : td.transport.closeFails <;>
        simp [shutdownSweep, List.filter_cons, h, ih]

theorem shutdown_snd (s : Store) :
    (shutdownSweep s).2 = s.map (fun e => (e.1, !e.2.transport.closeFails)) := by
  induction s with
  | nil => rfl
  | cons hd tl ih =>
      obtain ⟨sid, td⟩ := hd
      cases h : td.transport.closeFails <;>
        simp [shutdownSweep, h, ih]

theorem jsSplit_no_sep (sep : Char) (l : JStr) (h : sep ∉ l) : jsSplit sep l = [l] := by
  induction l with
  | nil => rfl
  | cons c cs ih =>
      have hc : ¬ c = sep := by
        rintro rfl
        exact h (List.mem_cons_self _ _)
      have hcs : sep ∉ cs := fun hm => h (List.mem_cons_of_mem _ hm)
      simp [jsSplit, hc, ih hcs]

theorem jsSplit_append (sep : Char) (l r : JStr) (h : sep ∉ l) :
    jsSplit sep (l ++ sep :: r) = l :: jsSplit sep r := by
  induction l with
  | nil => simp [jsSplit]
  | cons c cs ih =>
      have hc : ¬ c = sep := by
        rintro rfl
        exact h (List.mem_cons_self _ _)
      have hcs : sep ∉ cs := fun hm => h (List.mem_cons_of_mem _ hm)
      simp only [List.cons_append, jsSplit, hc, ite_false, if_neg, List.append_eq]
      rw [ih hcs]

theorem extractDecoded_pair (fb : ErrorBody) (u p : JStr)
    (hu : u ≠ []) (hp : p ≠ []) (hcu : ':' ∉ u) (hcp : ':' ∉ p) :
    extractDecoded fb (u ++ ':' :: p) = .attached u p := by
  have h1 := jsSplit_append ':' u p hcu
  have h2 := jsSplit_no_sep ':' p hcp
  simp [extractDecoded, h1, h2, hu, hp]

theorem extractDecoded_emptyUser (fb : ErrorBody) (r : JStr) :
    extractDecoded fb (':' :: r) = .denied fb := by
  simp [extractDecoded, jsSplit]

theorem extractDecoded_emptyPass (fb : ErrorBody) (u : JStr) (hcu : ':' ∉ u) :
    extractDecoded fb (u ++ [':']) = .denied fb := by
  have h1 := jsSplit_append ':' u [] hcu
  simp [extractDecoded, h1, jsSplit]

theorem extractDecoded_missingPass (fb : ErrorBody) (u : JStr) (hcu : ':' ∉ u) :
    extractDecoded fb u = .denied fb := by
  have h1 := jsSplit_no_sep ':' u hcu
  simp [extractDecoded, h1]

theorem authMiddleware_basic (decode : JStr → JStr) (tok : JStr) (hsp : ' ' ∉ tok) :
    authMiddleware decode (some (basicScheme ++ tok)) =
      extractDecoded basicInvalidCreds (decode tok) := by
  have h1 : basicScheme.isPrefixOf (basicScheme ++ tok) = true := by
    simp [basicScheme, List.isPrefixOf]
  have h2 : jsSplit ' ' (basicScheme ++ tok) =
      ['B', 'a', 's', 'i', 'c'] :: jsSplit ' ' tok := by
    have h := jsSplit_append ' ' ['B', 'a', 's', 'i', 'c'] tok (by decide)
    simpa [basicScheme] using h
  have h3 := jsSplit_no_sep ' ' tok hsp
  simp [authMiddleware, h1, h2, h3]

theorem authMiddleware_bearer (decode : JStr → JStr) (tok : JStr)
    (hsp : ' ' ∉ tok) (ht : tok ≠ []) :
    authMiddleware decode (some (bearerScheme ++ tok)) =
      extractDecoded bearerInvalidFormat (decode tok) := by
  have h0 : basicScheme.isPrefixOf (bearerScheme ++ tok) = false := by
    simp [basicScheme, bearerScheme, List.isPrefixOf]
  have h1 : bearerScheme.isPrefixOf (bearerScheme ++ tok) = true := by
    simp [bearerScheme, List.isPrefixOf]
  have h2 : jsSplit ' ' (bearerScheme ++ tok) =
      ['B', 'e', 'a', 'r', 'e', 'r'] :: jsSplit ' ' tok := by
    have h := jsSplit_append ' ' ['B', 'e', 'a', 'r', 'e', 'r'] tok (by decide)
    simpa [bearerScheme] using h
  have h3 := jsSplit_no_sep ' ' tok hsp
  simp [authMiddleware, h0, h1, h2, h3, ht]

/-! Concrete sample data used by witnesses and counterexamples. -/

/-- A live streamable session entry with transport identity 7. -/
def liveStore : Store := [("s", ⟨⟨7, .streaming, false⟩, 100⟩)]

/-- An SSE-generation entry, used to exercise the SSE close callback. -/
def sseEntry : TransportWithTimestamp := ⟨⟨3, .eventStream, false⟩, 0⟩

/-- A store whose single transport throws from `close()`. -/
def failingStore : Store := [("s", ⟨⟨1, .streaming, true⟩, 0⟩)]

/-- A stale entry (last activity at time 0) whose close also throws. -/
def staleEntry : TransportWithTimestamp := ⟨⟨2, .eventStream, true⟩, 0⟩

/-- A fresh entry (last activity at time 99990). -/
def freshEntry : TransportWithTimestamp := ⟨⟨4, .streaming, false⟩, 99990⟩

/-- A two-entry store for reaper-sweep witnesses. -/
def sweepStore : Store := [("old", staleEntry), ("new", freshEntry)]

/-- `sweepStore` with its entries visited in the opposite order. -/
def sweepStoreRev : Store := [("new", freshEntry), ("old", staleEntry)]

/-- Entries used to exercise re-registration of an existing session id. -/
def oldEntry : TransportWithTimestamp := ⟨⟨1, .streaming, false⟩, 0⟩

/-- A distinct entry registered under the same id as `oldEntry`. -/
def newEntry : TransportWithTimestamp := ⟨⟨2, .streaming, false⟩, 5⟩

/-- C1 counterexample: the code has `CONNECTION_TIMEOUT = 30000` and
`CLEANUP_INTERVAL = 60000`, so the eviction timeout is NOT strictly
greater than the sweep interval. -/
theorem c1_counterexample : ¬ (CONNECTION_TIMEOUT > CLEANUP_INTERVAL) := by
  decide

/-- C1 (amended): the eviction timeout is strictly SMALLER than the sweep
interval — `CONNECTION_TIMEOUT (30000) < CLEANUP_INTERVAL (60000)`, so a
session idle for just over half a sweep period can be evicted by the
first sweep that observes it. -/
theorem c1_amended : CONNECTION_TIMEOUT < CLEANUP_INTERVAL := by
  decide

/-- C2 counterexample: on the SSE close-callback path, evicting the same
session id a second time invokes the transport's `close()` once more
(the callback has no presence guard), not zero times as claimed. -/
theorem c2_counterexample :
    ¬ ((sseCleanup "s" (sseCleanup "s" [("s", sseEntry)]).1).2 = 0) := by
  decide

/-- C2 (amended): eviction is idempotent on the session store on every
path, and evicting an absent id never errors; the streamable `/mcp`
close callback performs zero `close()` calls on a second invocation (and
on an absent id), but the SSE close callback invokes `close()` on every
invocation, including repeats and absent ids. -/
theorem c2_amended (sid : Option String) (k k2 : String) (s sAbs : Store)
    (habs : storeGet sAbs k = none) :
    streamableCleanup sid (streamableCleanup sid s).1 = ((streamableCleanup sid s).1, 0)
  ∧ (sseCleanup k2 (sseCleanup k2 s).1).1 = (sseCleanup k2 s).1
  ∧ (sseCleanup k2 (sseCleanup k2 s).1).2 = 1
  ∧ streamableCleanup (some k) sAbs = (sAbs, 0)
  ∧ sseCleanup k sAbs = (sAbs, 1) := by
  refine ⟨?_, ?_, rfl, ?_, ?_⟩
  · match sid with
    | none => rfl
    | some k0 =>
        by_cases h : k0 ≠ "" ∧ (storeGet s k0).isSome
        · simp [streamableCleanup, h, storeGet_storeDelete_self]
        · simp only [streamableCleanup, if_neg h]
  · simp [sseCleanup, storeDelete_idem]
  · simp [streamableCleanup, habs]
  · simp [sseCleanup, storeDelete_of_absent sAbs k habs]

/-- C2 witness: the amended statement evaluated on a one-entry store and
the absent id "zz". -/
theorem c2_witness :
    streamableCleanup (some "s")
        (streamableCleanup (some "s") [("s", sseEntry)]).1 =
      ((streamableCleanup (some "s") [("s", sseEntry)]).1, 0)
  ∧ (sseCleanup "s" (sseCleanup "s" [("s", sseEntry)]).1).1 =
      (sseCleanup "s" [("s", sseEntry)]).1
  ∧ (sseCleanup "s" (sseCleanup "s" [("s", sseEntry)]).1).2 = 1
  ∧ streamableCleanup (some "zz") liveStore = (liveStore, 0)
  ∧ sseCleanup "zz" liveStore = (liveStore, 1) :=
  c2_amended (some "s") "zz" "s" [("s", sseEntry)] liveStore (by decide)

/-- C4 counterexample: registering an id that is already present silently
replaces the stored entry — there is no `DuplicateSessionError` and the
existing entry is not preserved. -/
theorem c4_counterexample :
    registerSession [("s", oldEntry)] "s" newEntry = [("s", newEntry)]
  ∧ oldEntry ≠ newEntry := by
  decide

/-- C4 (amended): session registration is an unconditional property
assignment: after `registerSession`, the store maps the id to the NEW
entry, for every prior store state — in particular a previously stored
handle under the same id is silently replaced, never defended by an
error. -/
theorem c4_amended (s : Store) (sid : String) (td : TransportWithTimestamp) :
    storeGet (registerSession s sid td) sid = some td :=
  storeGet_storeSet_self s sid td

/-- C6: one reaper sweep evicts exactly the entries with
`now - lastActivity > CONNECTION_TIMEOUT`, leaves every other entry
unchanged (in order), closes every stale entry even when some closes
throw, and the surviving set is permutation-invariant in the visit
order. -/
theorem c6_confirmed (now : Int) (s s2 : Store) (hperm : s.Perm s2) :
    (cleanupStaleConnections now s).1 = s.filter (fun e => !(isStale now e.2))
  ∧ (cleanupStaleConnections now s).2 =
      (s.filter (fun e => isStale now e.2)).map
        (fun e => (e.1, !e.2.transport.closeFails))
  ∧ (cleanupStaleConnections now s).1.Perm (cleanupStaleConnections now s2).1 := by
  refine ⟨cleanup_fst now s, cleanup_snd now s, ?_⟩
  rw [cleanup_fst now s, cleanup_fst now s2]
  exact hperm.filter _

/-- C6 witness: a sweep at time 100000 over a stale entry (whose close
throws) and a fresh one, in both visit orders. -/
theorem c6_witness :
    (cleanupStaleConnections 100000 sweepStore).1 =
      sweepStore.filter (fun e => !(isStale 100000 e.2))
  ∧ (cleanupStaleConnections 100000 sweepStore).2 =
      (sweepStore.filter (fun e => isStale 100000 e.2)).map
        (fun e => (e.1, !e.2.transport.closeFails))
  ∧ (cleanupStaleConnections 100000 sweepStore).1.Perm
      (cleanupStaleConnections 100000 sweepStoreRev).1 :=
  c6_confirmed 100000 sweepStore sweepStoreRev (by decide)

/-- C7 counterexample: on the shutdown coordinator's final sweep, a
transport whose `close()` throws is NOT removed from the store (the
`delete` sits after the `await close()` inside the `try`). -/
theorem c7_counterexample :
    (shutdownSweep failingStore).1 = failingStore ∧ failingStore ≠ [] := by
  decide

/-- C7 (amended): on the reaper path and on both transport close-callback
paths, a close error is swallowed and the entry is removed from the
store regardless of close outcome; on the shutdown sweep the error is
likewise logged and the loop continues through the remaining entries,
but an entry whose close throws stays in the store — exactly the entries
with throwing closes survive, and every entry still gets a close
attempt. -/
theorem c7_amended (now : Int) (s : Store) (k sid : String)
    (hs : sid ≠ "") (hp : (storeGet s sid).isSome = true) :
    streamableCleanup (some sid) s = (storeDelete s sid, 1)
  ∧ sseCleanup k s = (storeDelete s k, 1)
  ∧ (cleanupStaleConnections now s).1 = s.filter (fun e => !(isStale now e.2))
  ∧ (cleanupStaleConnections now s).2 =
      (s.filter (fun e => isStale now e.2)).map
        (fun e => (e.1, !e.2.transport.closeFails))
  ∧ (shutdownSweep s).1 = s.filter (fun e => e.2.transport.closeFails)
  ∧ (shutdownSweep s).2 = s.map (fun e => (e.1, !e.2.transport.closeFails)) := by
  refine ⟨?_, rfl, cleanup_fst now s, cleanup_snd now s, shutdown_fst s, shutdown_snd s⟩
  simp [streamableCleanup, hs, hp]

/-- C7 witness: the amended statement evaluated at time 100000 on the
two-entry store whose stale entry throws from `close()`. -/
theorem c7_witness :
    streamableCleanup (some "old") sweepStore = (storeDelete sweepStore "old", 1)
  ∧ sseCleanup "new" sweepStore = (storeDelete sweepStore "new", 1)
  ∧ (cleanupStaleConnections 100000 sweepStore).1 =
      sweepStore.filter (fun e => !(isStale 100000 e.2))
  ∧ (cleanupStaleConnections 100000 sweepStore).2 =
      (sweepStore.filter (fun e => isStale 100000 e.2)).map
        (fun e => (e.1, !e.2.transport.closeFails))
  ∧ (shutdownSweep sweepStore).1 = sweepStore.filter (fun e => e.2.transport.closeFails)
  ∧ (shutdownSweep sweepStore).2 = sweepStore.map (fun e => (e.1, !e.2.transport.closeFails)) :=
  c7_amended 100000 sweepStore "new" "old" (by decide) (by decide)

/-- C3: a `/mcp` request that carries a (truthy) session id which is
either unknown to the store, or bound to an SSE-generation transport,
fails with a 400 response carrying JSON-RPC code -32000 (the spec's
`SessionProtocolMismatchError` family) and leaves the store exactly as
it was — the id is never reassigned.  `storeA`/`sidA` exercise the
unknown-id branch and `storeB`/`sidB` the wrong-generation branch. -/
theorem c3_confirmed (env : Env) (now : Int) (ftid : Nat) (m1 m2 : Method)
    (i1 i2 : Bool) (c : String × String)
    (storeA : Store) (sidA : String) (storeB : Store) (sidB : String)
    (td : TransportWithTimestamp)
    (hsA : sidA ≠ "") (habs : storeGet storeA sidA = none)
    (hsB : sidB ≠ "") (hlk : storeGet storeB sidB = some td)
    (hgen : td.transport.gen = .eventStream) :
    handleMcp env storeA now ftid ⟨m1, some sidA, i1, some c⟩ =
      (.errorResponse noValidSession, storeA)
  ∧ handleMcp env storeB now ftid ⟨m2, some sidB, i2, some c⟩ =
      (.errorResponse protocolMismatch, storeB)
  ∧ noValidSession.status = 400 ∧ noValidSession.rpcCode = some (-32000)
  ∧ protocolMismatch.status = 400 ∧ protocolMismatch.rpcCode = some (-32000) := by
  obtain ⟨u, p⟩ := c
  refine ⟨?_, ?_, rfl, rfl, rfl, rfl⟩
  · simp [handleMcp, mcpCredCheck, resolveCreds, hsA, habs]
  · simp [handleMcp, mcpCredCheck, resolveCreds, hsB, hlk, hgen]

/-- C3 witness: the unknown id "x" on the empty store, and the id "e" of
an SSE-generation entry, both on a POST carrying credentials. -/
theorem c3_witness :
    handleMcp ⟨none, none⟩ [] 0 0 ⟨.post, some "x", true, some ("u", "p")⟩ =
      (.errorResponse noValidSession, [])
  ∧ handleMcp ⟨none, none⟩ [("e", sseEntry)] 0 0 ⟨.post, some "e", true, some ("u", "p")⟩ =
      (.errorResponse protocolMismatch, [("e", sseEntry)])
  ∧ noValidSession.status = 400 ∧ noValidSession.rpcCode = some (-32000)
  ∧ protocolMismatch.status = 400 ∧ protocolMismatch.rpcCode = some (-32000) :=
  c3_confirmed ⟨none, none⟩ 0 0 .post .post true true ("u", "p")
    [] "x" [("e", sseEntry)] "e" sseEntry
    (by decide) (by decide) (by decide) (by decide) (by decide)

/-- C5 counterexample: for a `Basic` header whose token decodes to the
credential string of user `a:b` and password `c` (decoded bytes
`a:b:c`), the extractor attaches the pair `(a, b)` — the first two
colon-separated fields — not the pair `(a:b, c)` the claim promises for
arbitrary non-empty user and password. -/
theorem c5_counterexample :
    authMiddleware (fun _ => ['a', ':', 'b', ':', 'c']) (some (basicScheme ++ ['X'])) =
      .attached ['a'] ['b']
  ∧ AuthResult.attached ['a'] ['b'] ≠ .attached ['a', ':', 'b'] ['c'] := by
  decide

/-- C5 (amended): for `Basic`/`Bearer` headers whose token decodes to
`user:pass` with both halves non-empty and COLON-FREE, the extractor
attaches exactly `(user, pass)`; a decoded string with an empty first
field, an empty second field, or no colon at all is denied with the
401 / -32001 body. -/
theorem c5_amended (u p tok r : JStr) (decode : JStr → JStr)
    (hu : u ≠ []) (hp : p ≠ []) (hcu : ':' ∉ u) (hcp : ':' ∉ p)
    (hsp : ' ' ∉ tok) (ht : tok ≠ []) (hdec : decode tok = u ++ ':' :: p) :
    authMiddleware decode (some (basicScheme ++ tok)) = .attached u p
  ∧ authMiddleware decode (some (bearerScheme ++ tok)) = .attached u p
  ∧ extractDecoded basicInvalidCreds (':' :: r) = .denied basicInvalidCreds
  ∧ extractDecoded basicInvalidCreds (u ++ [':']) = .denied basicInvalidCreds
  ∧ extractDecoded basicInvalidCreds u = .denied basicInvalidCreds
  ∧ basicInvalidCreds.status = 401 ∧ basicInvalidCreds.rpcCode = some (-32001) := by
  refine ⟨?_, ?_, extractDecoded_emptyUser _ r, extractDecoded_emptyPass _ u hcu,
    extractDecoded_missingPass _ u hcu, rfl, rfl⟩
  · rw [authMiddleware_basic decode tok hsp, hdec]
    exact extractDecoded_pair _ u p hu hp hcu hcp
  · rw [authMiddleware_bearer decode tok hsp ht, hdec]
    exact extractDecoded_pair _ u p hu hp hcu hcp

/-- C5 witness: the amended statement at user `u`, password `w`, token
`X` whose decode is `u:w`. -/
theorem c5_witness :
    authMiddleware (fun _ => ['u', ':', 'w']) (some (basicScheme ++ ['X'])) =
      .attached ['u'] ['w']
  ∧ authMiddleware (fun _ => ['u', ':', 'w']) (some (bearerScheme ++ ['X'])) =
      .attached ['u'] ['w']
  ∧ extractDecoded basicInvalidCreds (':' :: ['z']) = .denied basicInvalidCreds
  ∧ extractDecoded basicInvalidCreds (['u'] ++ [':']) = .denied basicInvalidCreds
  ∧ extractDecoded basicInvalidCreds ['u'] = .denied basicInvalidCreds
  ∧ basicInvalidCreds.status = 401 ∧ basicInvalidCreds.rpcCode = some (-32001) :=
  c5_amended ['u'] ['w'] ['X'] ['z'] (fun _ => ['u', ':', 'w'])
    (by decide) (by decide) (by decide) (by decide) (by decide) (by decide) (by decide)

/-- C8 counterexample: in the session-tracking variant, a GET to `/mcp`
carrying the id of a live STREAMING session is not rejected with 405 —
it is forwarded to the stored transport (the streamable protocol uses
GET to open its event stream). -/
theorem c8_counterexample :
    (handleMcp ⟨none, none⟩ liveStore 200 9 ⟨.get, some "s", false, some ("u", "p")⟩).1 =
      .resumed "s" 7
  ∧ outcomeStatus (McpOutcome.resumed "s" 7) ≠ some 405 := by
  decide

/-- C8 (amended): only the stateless variant's dedicated `GET /mcp`
route rejects every GET with 405; the session-tracking variant routes
GET like any other method — with a live STREAMING session id it is
forwarded to the stored transport, while an unknown or missing session
id yields the 400 "no valid session" response (a GET is never an
initialization POST). -/
theorem c8_amended (r : McpRequest) (env : Env) (now : Int) (ftid : Nat)
    (ii : Bool) (c : String × String)
    (store1 : Store) (sid1 : String) (td : TransportWithTimestamp)
    (store2 : Store) (sid2 : String)
    (hs1 : sid1 ≠ "") (hlk : storeGet store1 sid1 = some td)
    (hgen : td.transport.gen = .streaming)
    (hs2 : sid2 ≠ "") (habs : storeGet store2 sid2 = none) :
    statelessGetMcp r = ⟨405, some (-32000), "Method not allowed."⟩
  ∧ (handleMcp env store1 now ftid ⟨.get, some sid1, ii, some c⟩).1 =
      .resumed sid1 td.transport.tid
  ∧ (handleMcp env store2 now ftid ⟨.get, some sid2, ii, some c⟩).1 =
      .errorResponse noValidSession
  ∧ (handleMcp env store2 now ftid ⟨.get, none, ii, some c⟩).1 =
      .errorResponse noValidSession := by
  obtain ⟨u, p⟩ := c
  refine ⟨rfl, ?_, ?_, ?_⟩
  · simp [handleMcp, mcpCredCheck, resolveCreds, hs1, hlk, hgen]
  · simp [handleMcp, mcpCredCheck, resolveCreds, hs2, habs]
  · simp [handleMcp, mcpCredCheck, resolveCreds]

/-- C8 witness: the amended statement on the live one-entry store and on
the empty store with the unknown id "x". -/
theorem c8_witness :
    statelessGetMcp ⟨.get, some "s", false, some ("u", "p")⟩ =
      ⟨405, some (-32000), "Method not allowed."⟩
  ∧ (handleMcp ⟨none, none⟩ liveStore 200 9 ⟨.get, some "s", false, some ("u", "p")⟩).1 =
      .resumed "s" 7
  ∧ (handleMcp ⟨none, none⟩ [] 200 9 ⟨.get, some "x", false, some ("u", "p")⟩).1 =
      .errorResponse noValidSession
  ∧ (handleMcp ⟨none, none⟩ [] 200 9 ⟨.get, none, false, some ("u", "p")⟩).1 =
      .errorResponse noValidSession :=
  c8_amended ⟨.get, some "s", false, some ("u", "p")⟩ ⟨none, none⟩ 200 9 false ("u", "p")
    liveStore "s" ⟨⟨7, .streaming, false⟩, 100⟩ [] "x"
    (by decide) (by decide) rfl (by decide) rfl

/-- C9 counterexample: with no request credentials and no environment
credentials, the stateless variant's `GET /tools` handler answers 401
with a plain `{ error: ... }` body carrying NO JSON-RPC code at all — in
particular not code -32001 — so the claim does not hold for every
protected endpoint. -/
theorem c9_counterexample :
    toolsCredCheck none ⟨none, none⟩ = .inl toolsAuthRequired
  ∧ toolsAuthRequired.rpcCode ≠ some (-32001) := by
  decide

/-- C9 (amended): with no request credentials and at least one falsy
environment credential, every protected endpoint rejects the request
with status 401, but only the MCP-protocol endpoints (`/mcp`, `/sse`,
`/messages`) use the JSON-RPC envelope with code -32001; `/tools`,
`/tool` and `/validate-credentials` answer with plain error objects
carrying no JSON-RPC code. -/
theorem c9_amended (env : Env)
    (h : ¬ (truthy env.username = true ∧ truthy env.password = true)) :
    mcpCredCheck none env = .inl mcpAuthRequired
  ∧ sseCredCheck none env = .inl sseAuthRequired
  ∧ messagesCredCheck none env = .inl messagesAuthRequired
  ∧ toolsCredCheck none env = .inl toolsAuthRequired
  ∧ toolCredCheck none env = .inl toolAuthRequired
  ∧ validateCredsCheck none env = .inl validateCredsAuthRequired
  ∧ mcpAuthRequired.status = 401 ∧ mcpAuthRequired.rpcCode = some (-32001)
  ∧ sseAuthRequired.status = 401 ∧ sseAuthRequired.rpcCode = some (-32001)
  ∧ messagesAuthRequired.status = 401 ∧ messagesAuthRequired.rpcCode = some (-32001)
  ∧ toolsAuthRequired.status = 401 ∧ toolsAuthRequired.rpcCode = none
  ∧ toolAuthRequired.status = 401 ∧ toolAuthRequired.rpcCode = none
  ∧ validateCredsAuthRequired.status = 401 ∧ validateCredsAuthRequired.rpcCode = none := by
  refine ⟨?_, ?_, ?_, ?_, ?_, ?_, rfl, rfl, rfl, rfl, rfl, rfl, rfl, rfl, rfl, rfl, rfl, rfl⟩ <;>
    simp [mcpCredCheck, sseCredCheck, messagesCredCheck, toolsCredCheck,
      toolCredCheck, validateCredsCheck, resolveCreds, h]

/-- C9 witness: the amended statement in an environment where only the
password variable is set. -/
theorem c9_witness :
    mcpCredCheck none ⟨none, some "pw"⟩ = .inl mcpAuthRequired
  ∧ sseCredCheck none ⟨none, some "pw"⟩ = .inl sseAuthRequired
  ∧ messagesCredCheck none ⟨none, some "pw"⟩ = .inl messagesAuthRequired
  ∧ toolsCredCheck none ⟨none, some "pw"⟩ = .inl toolsAuthRequired
  ∧ toolCredCheck none ⟨none, some "pw"⟩ = .inl toolAuthRequired
  ∧ validateCredsCheck none ⟨none, some "pw"⟩ = .inl validateCredsAuthRequired
  ∧ mcpAuthRequired.status = 401 ∧ mcpAuthRequired.rpcCode = some (-32001)
  ∧ sseAuthRequired.status = 401 ∧ sseAuthRequired.rpcCode = some (-32001)
  ∧ messagesAuthRequired.status = 401 ∧ messagesAuthRequired.rpcCode = some (-32001)
  ∧ toolsAuthRequired.status = 401 ∧ toolsAuthRequired.rpcCode = none
  ∧ toolAuthRequired.status = 401 ∧ toolAuthRequired.rpcCode = none
  ∧ validateCredsAuthRequired.status = 401 ∧ validateCredsAuthRequired.rpcCode = none :=
  c9_amended ⟨none, some "pw"⟩ (by decide)

/-- C10: resuming a live STREAMING session ignores the per-request
credentials — two requests identical except for their (attached)
credential pairs produce the same routing outcome and the same store
state, and that outcome is the resume of the stored transport (no new
`getServer` handler is built). -/
theorem c10_confirmed (env : Env) (store : Store) (now : Int) (ftid : Nat)
    (m : Method) (ii : Bool) (sid : String) (td : TransportWithTimestamp)
    (ca cb : String × String)
    (hs : sid ≠ "") (hlk : storeGet store sid = some td)
    (hgen : td.transport.gen = .streaming) :
    handleMcp env store now ftid ⟨m, some sid, ii, some ca⟩ =
      handleMcp env store now ftid ⟨m, some sid, ii, some cb⟩
  ∧ (handleMcp env store now ftid ⟨m, some sid, ii, some ca⟩).1 =
      .resumed sid td.transport.tid := by
  obtain ⟨ua, pa⟩ := ca
  obtain ⟨ub, pb⟩ := cb
  constructor <;> simp [handleMcp, mcpCredCheck, resolveCreds, hs, hlk, hgen]

/-- C10 witness: two POSTs to the live session "s" differing only in
their credential pairs. -/
theorem c10_witness :
    handleMcp ⟨none, none⟩ liveStore 200 9 ⟨.post, some "s", false, some ("alice", "pw1")⟩ =
      handleMcp ⟨none, none⟩ liveStore 200 9 ⟨.post, some "s", false, some ("bob", "pw2")⟩
  ∧ (handleMcp ⟨none, none⟩ liveStore 200 9 ⟨.post, some "s", false, some ("alice", "pw1")⟩).1 =
      .resumed "s" 7 :=
  c10_confirmed ⟨none, none⟩ liveStore 200 9 .post false "s" ⟨⟨7, .streaming, false⟩, 100⟩
    ("alice", "pw1") ("bob", "pw2") (by decide) (by decide) rfl
